import Mathlib

/-!
Shallow embedding of the cross-tab sync subsystem of this repository
(`core_sync_system.js`, `unified_sync_manager.js`, `unified_sync_system.js`).

Modelling conventions:
* JS primitive values are modelled by `JsVal` (integers, strings, booleans,
  null).  The ids and timestamps this code mints are integers
  (`Date.now() + Math.floor(Math.random()*1000)`), so numbers are `Int`.
* A JS object is an insertion-ordered association list `JsObj`; object
  literals with spreads (`{a, ...p, b}`) are folds of `kvSet`, which matches
  JS semantics: a later property overwrites the value of an existing key in
  place, otherwise appends.
* `localStorage` is a key → string map.  Since every value the code writes is
  `JSON.stringify` output (always re-parseable), the store maps keys to the
  parsed shapes directly: `StoreVal` (object / array-of-objects / plain
  string), with a `corrupt` constructor standing for an unparseable string
  written by an external party; `JSON.parse` of `corrupt` throws.
* Nondeterministic environment inputs (`Date.now()`, `Math.random()`,
  `new Date().toISOString()`) are explicit parameters.
* Storage-engine failure (quota, disabled storage) is the explicit boolean
  parameter `ok` of the write primitives: raw `localStorage.setItem` throws
  when it fails (`rawSetItem` returns `.error`), while the classes'
  `secureStorage.setItem` wrapper catches and returns `false`
  (`secureSetItem`).
* Fallible JS functions (ones whose embedded body can `throw`) return
  `Except Unit`.
-/

namespace PP

/-- JS primitive values occurring in this subsystem. -/
inductive JsVal where
  | num (n : Int)
  | str (s : String)
  | boolV (b : Bool)
  | nullV
deriving DecidableEq, Repr

/-- A JS object: insertion-ordered field list. -/
abbrev JsObj := List (String × JsVal)

/-- First-match lookup in an association list (JS property read on objects
whose keys are unique, which object construction guarantees). -/
def kvGet {α : Type} : List (String × α) → String → Option α
  | [], _ => none
  | (k', v') :: rest, k => if k' = k then some v' else kvGet rest k

/-- JS property write: overwrite an existing key in place, else append. -/
def kvSet {α : Type} : List (String × α) → String → α → List (String × α)
  | [], k, v => [(k, v)]
  | (k', v') :: rest, k, v =>
      if k' = k then (k, v) :: rest else (k', v') :: kvSet rest k v

/-- JS key delete / `localStorage.removeItem`. -/
def kvRemove {α : Type} : List (String × α) → String → List (String × α)
  | [], _ => []
  | (k', v') :: rest, k =>
      if k' = k then kvRemove rest k else (k', v') :: kvRemove rest k

/-- Keys of an association list, in order. -/
def kvKeys {α : Type} (l : List (String × α)) : List String := l.map Prod.fst

/-- JS object spread `{...base, ...o}`: fold the fields of `o` over `base`. -/
def objSpread (base : JsObj) (o : JsObj) : JsObj :=
  o.foldl (fun acc kv => kvSet acc kv.1 kv.2) base

/-- JS truthiness of the modelled values (`0`, `""`, `false`, `null` are
falsy). -/
def jsTruthy : JsVal → Bool
  | .num n => n ≠ 0
  | .str s => s ≠ ""
  | .boolV b => b
  | .nullV => false

/-- Truthiness of a possibly-absent property (`undefined` is falsy). -/
def jsTruthyO : Option JsVal → Bool
  | none => false
  | some v => jsTruthy v

/-- JS `x || d` on a possibly-absent value. -/
def jsOrD (o : Option JsVal) (d : JsVal) : JsVal :=
  if jsTruthyO o then o.getD d else d

/-- Numeric value of a list of decimal digit characters. -/
def digitsVal (cs : List Char) : Nat :=
  cs.foldl (fun acc c => acc * 10 + (c.toNat - '0'.toNat)) 0

/-- JS `Number(s)` restricted to the canonical decimal-integer strings this
code produces and compares (`Date.now()+…` ids rendered by `toString`).
`""` converts to `0`; an optionally signed all-digit string converts to its
value; anything else is NaN (`none`).  Floats, hex, and surrounding
whitespace are outside the model. -/
def jsStringToNumber (s : String) : Option Int :=
  if s = "" then some 0
  else
    match s.data with
    | '-' :: rest =>
        if rest ≠ [] ∧ rest.all Char.isDigit then some (-(digitsVal rest : Int)) else none
    | cs => if cs.all Char.isDigit then some (digitsVal cs : Int) else none

/-- JS `parseInt(s)`: parse an optionally signed run of leading decimal
digits, ignoring any trailing garbage; NaN (`none`) when no digit leads. -/
def jsParseInt (s : String) : Option Int :=
  match s.data with
  | '-' :: rest =>
      let ds := rest.takeWhile Char.isDigit
      if ds = [] then none else some (-(digitsVal ds : Int))
  | cs =>
      let ds := cs.takeWhile Char.isDigit
      if ds = [] then none else some (digitsVal ds : Int)

/-- JS `n.toString()` for the integers this code mints. -/
def jsIntToString (n : Int) : String := toString n

/-- JS string coercion as used by template literals and `textContent`
assignment. -/
def jsTemplate : JsVal → String
  | .num n => jsIntToString n
  | .str s => s
  | .boolV b => if b then "true" else "false"
  | .nullV => "null"

/-- JS loose equality `==` on the modelled values: same-type compares the
value; number vs. string converts the string with `Number`; booleans convert
to `0`/`1`; `null` equals only `null`. -/
def jsLooseEq : JsVal → JsVal → Bool
  | .num n, .num m => n = m
  | .str s, .str t => s = t
  | .num n, .str s => jsStringToNumber s = some n
  | .str s, .num n => jsStringToNumber s = some n
  | .boolV a, .boolV b => a = b
  | .boolV b, .num n => (if b then (1 : Int) else 0) = n
  | .num n, .boolV b => (if b then (1 : Int) else 0) = n
  | .boolV b, .str s => jsStringToNumber s = some (if b then 1 else 0)
  | .str s, .boolV b => jsStringToNumber s = some (if b then 1 else 0)
  | .nullV, .nullV => true
  | _, _ => false

/-- A parsed shape a storage key can hold (everything this code writes is
`JSON.stringify` of one of these). -/
inductive StoreVal where
  | jobj (o : JsObj)
  | jarr (l : List JsObj)
  | jstr (s : String)
deriving DecidableEq, Repr

/-- Raw content of a storage key: well-formed JSON, or an unparseable string
(written by something outside this subsystem). -/
inductive StoredData where
  | good (v : StoreVal)
  | corrupt
deriving DecidableEq, Repr

/-- The browser's per-origin key-value store. -/
abbrev Store := List (String × StoredData)

/-- Raw `localStorage.setItem`: throws on storage failure. -/
def rawSetItem (ok : Bool) (st : Store) (k : String) (v : StoredData) :
    Except Unit Store :=
  if ok then .ok (kvSet st k v) else .error ()

/-- `secureStorage.setItem`: catches the storage failure and reports it as a
boolean instead. -/
def secureSetItem (ok : Bool) (st : Store) (k : String) (v : StoredData) :
    Store × Bool :=
  if ok then (kvSet st k v, true) else (st, false)

/-- JS property read on a parsed JSON value: non-objects have no properties
(`undefined`). -/
def svGet : StoreVal → String → Option JsVal
  | .jobj o, k => kvGet o k
  | _, _ => none

/-- Is `pre` a prefix of `l`? -/
def charPrefix : List Char → List Char → Bool
  | [], _ => true
  | _ :: _, [] => false
  | c :: cs, d :: ds => c = d && charPrefix cs ds

/-- Does `pat` occur as a contiguous sublist of `l`? -/
def charSub (pat : List Char) : List Char → Bool
  | [] => charPrefix pat []
  | d :: ds => charPrefix pat (d :: ds) || charSub pat ds

/-- Does `pat` occur in `s` (JS `String.includes`)? -/
def jsIncludes (s pat : String) : Bool := charSub pat.data s.data

/-! ## DOM display surface

An element carries the attributes the display-update code inspects: its id,
class list, text content, whether it `matches('label')`, whether it matches
`'input, textarea, select'`, and whether it sits inside a `form`
(`closest('form')`). -/

structure DomElem where
  idAttr : String
  classes : List String
  text : String
  isLabel : Bool
  isFormControl : Bool
  inForm : Bool
deriving DecidableEq, Repr

abbrev Dom := List DomElem

/-- Does an element match the profile-name selector list shared by
`CoreSyncSystem.updateProfileDisplay` and
`UnifiedSyncManager.updateProfileDisplay`
(`#user-name, #nav-username-desktop, #nav-username-mobile, #username,
#fullname, .username-display, .fullname-display`)? -/
def nameSelectorMatches (e : DomElem) : Bool :=
  e.idAttr ∈ (["user-name", "nav-username-desktop", "nav-username-mobile",
      "username", "fullname"] : List String)
    ∨ e.classes.contains "username-display"
    ∨ e.classes.contains "fullname-display"

/-- `CoreSyncSystem.updateProfileDisplay` + `batchUpdateDOM`, restricted to
the `textContent` updates (the avatar update touches only attributes).  A
name update is queued only when `profile.fullname` is truthy, an email update
only when `profile.email` is truthy; `batchUpdateDOM` then writes
`textContent` when the current text differs from the new value (`!==`, so a
non-string value always differs) and the element does not match
`'input, textarea, select, label'`. -/
def coreUpdateProfileDisplay (dom : Dom) (p : StoreVal) : Dom :=
  let fn := svGet p "fullname"
  let em := svGet p "email"
  let textDiffers (t : String) (v : JsVal) : Bool :=
    match v with
    | .str s => t ≠ s
    | _ => true
  dom.map fun e =>
    let e1 :=
      match fn with
      | some v =>
          if jsTruthy v ∧ nameSelectorMatches e ∧ textDiffers e.text v ∧
              ¬(e.isFormControl ∨ e.isLabel) then
            { e with text := jsTemplate v }
          else e
      | none => e
    match em with
    | some v =>
        if jsTruthy v ∧ e1.idAttr = "user-email" ∧ textDiffers e1.text v ∧
            ¬(e1.isFormControl ∨ e1.isLabel) then
          { e1 with text := jsTemplate v }
        else e1
    | none => e1

/-- `UnifiedSyncManager.updateProfileDisplay`, restricted to its DOM writes
(the subscriber notification and `unifiedProfileUpdated` dispatch carry no
DOM effect of their own).  A name element is rewritten when
`profile.fullname` is truthy, its current text is truthy (nonempty), it is
not a `label`, it is not inside a `form`, and its text contains neither of
the two guarded copy strings; `#user-email` is rewritten when
`profile.email` is truthy and the element's text is nonempty. -/
def unifiedUpdateProfileDisplay (dom : Dom) (p : StoreVal) : Dom :=
  let fn := svGet p "fullname"
  let em := svGet p "email"
  dom.map fun e =>
    let e1 :=
      match fn with
      | some v =>
          if nameSelectorMatches e ∧ jsTruthy v ∧ e.text ≠ "" ∧
              ¬e.isLabel ∧ ¬e.inForm ∧
              ¬jsIncludes e.text "数据类型" ∧ ¬jsIncludes e.text "参考标准" then
            { e with text := jsTemplate v }
          else e
      | none => e
    match em with
    | some v =>
        if jsTruthy v ∧ e1.idAttr = "user-email" ∧ e1.text ≠ "" then
          { e1 with text := jsTemplate v }
        else e1
    | none => e1

/-! ## Profile cache -/

/-- The legacy profile keys `CoreSyncSystem.getUserProfile` scans after its
canonical key. -/
def coreLegacyProfileKeys : List String :=
  ["userProfileData", "unified_user_profile", "ultimate_user_profile", "currentUser"]

/-- First key of `keys` holding data in `st`, with that data. -/
def firstStored (st : Store) : List String → Option StoredData
  | [] => none
  | k :: rest =>
      match kvGet st k with
      | some d => some d
      | none => firstStored st rest

/-- `CoreSyncSystem.getUserProfile`: read the canonical key
`core_user_profile`, else the first populated legacy key; parse; on a parse
failure remove the canonical key (whichever key the data came from) and
return null.  No remote API is consulted and no migration write happens. -/
def coreGetUserProfile (st : Store) : Store × Option StoreVal :=
  match firstStored st ("core_user_profile" :: coreLegacyProfileKeys) with
  | none => (st, none)
  | some .corrupt => (kvRemove st "core_user_profile", none)
  | some (.good v) => (st, some v)

/-- `UnifiedSyncSystem.getUserProfile`: canonical key `unified_user_profile`,
else `userProfileData`, else `ultimate_user_profile`; on success, if the
canonical key does not already hold exactly this data, rewrite it there
(migration-on-read); a parse failure returns null with no store change. -/
def unifiedSystemGetUserProfile (st : Store) : Store × Option StoreVal :=
  let data :=
    match kvGet st "unified_user_profile" with
    | some d => some d
    | none =>
        match kvGet st "userProfileData" with
        | some d => some d
        | none => kvGet st "ultimate_user_profile"
  match data with
  | none => (st, none)
  | some .corrupt => (st, none)
  | some (.good v) =>
      let st' :=
        if kvGet st "unified_user_profile" = some (.good v) then st
        else kvSet st "unified_user_profile" (.good v)
      (st', some v)

/-- `UnifiedSyncManager.getProfile`: reads only the canonical key
`unified_user_profile`; parse failure yields null.  (A stored non-object is
a parseable value carrying no profile fields; it is modelled as the object
it is.) -/
def unifiedGetProfile (st : Store) : Option StoreVal :=
  match kvGet st "unified_user_profile" with
  | some (.good v) => some v
  | _ => none

/-- The merged object `{id: 'currentUser', ...profile, updatedAt: nowIso}`
built by `CoreSyncSystem.saveUserProfile` (a profile carrying its own `id`
overrides the constant via the spread). -/
def coreMergedProfile (p : JsObj) (nowIso : String) : JsObj :=
  kvSet (objSpread [("id", .str "currentUser")] p) "updatedAt" (.str nowIso)

/-- `CoreSyncSystem.triggerSync`: write the epoch-millis timestamp under
`core_sync_trigger` through `secureStorage` (failure swallowed).  The delayed
200 ms removal of the trigger key is a separate timer event outside this
call. -/
def coreTriggerSync (ok : Bool) (st : Store) (now : Int) : Store :=
  (secureSetItem ok st "core_sync_trigger" (.good (.jstr (jsIntToString now)))).1

/-- `CoreSyncSystem.saveUserProfile`: merge, write the canonical key through
`secureStorage` and throw when that write reports failure; then trigger the
sync signal, update the display directly unless editing, and dispatch
`coreProfileUpdated` — whose listener `handleCoreProfileUpdate` (registered
in `setupEventListeners`) synchronously calls `updateProfileDisplay` again,
without consulting the editing flag. -/
def coreSaveUserProfile (ok : Bool) (st : Store) (editing : Bool) (dom : Dom)
    (p : JsObj) (nowIso : String) (now : Int) :
    Except Unit (Store × Dom × JsObj) :=
  let userData := coreMergedProfile p nowIso
  match secureSetItem ok st "core_user_profile" (.good (.jobj userData)) with
  | (_, false) => .error ()
  | (st1, true) =>
      let st2 := coreTriggerSync ok st1 now
      let dom1 := if editing then dom else coreUpdateProfileDisplay dom (.jobj userData)
      let dom2 := coreUpdateProfileDisplay dom1 (.jobj userData)
      .ok (st2, dom2, userData)

/-- The merged object `{id: profile.id || 'currentUser', ...profile,
updatedAt: nowIso}` built by `UnifiedSyncManager.saveProfile`. -/
def unifiedMergedProfile (p : JsObj) (nowIso : String) : JsObj :=
  kvSet (objSpread [("id", jsOrD (kvGet p "id") (.str "currentUser"))] p)
    "updatedAt" (.str nowIso)

/-- `UnifiedSyncManager.triggerSync` (no profile argument): write the trigger
key and `unified_last_sync_time` through `secureStorage`. -/
def unifiedTriggerSync (ok : Bool) (st : Store) (now : Int) : Store :=
  let st1 := (secureSetItem ok st "unified_sync_trigger"
    (.good (.jstr (jsIntToString now)))).1
  (secureSetItem ok st1 "unified_last_sync_time"
    (.good (.jstr (jsIntToString now)))).1

/-- `UnifiedSyncManager.saveProfile`: merge, write the canonical key
`unified_user_profile` and the legacy key `userProfileData` through
`secureStorage` — discarding both success booleans — then trigger sync and
return the merged profile.  Every operation in its `try` block returns
normally (`secureStorage` catches storage failures), so the `catch`/rethrow
is unreachable and the function always returns `.ok`. -/
def unifiedSaveProfile (ok : Bool) (st : Store) (p : JsObj)
    (nowIso : String) (now : Int) : Except Unit (Store × JsObj) :=
  let prof := unifiedMergedProfile p nowIso
  let st1 := (secureSetItem ok st "unified_user_profile" (.good (.jobj prof))).1
  let st2 := (secureSetItem ok st1 "userProfileData" (.good (.jobj prof))).1
  let st3 := unifiedTriggerSync ok st2 now
  .ok (st3, prof)

/-! ## Sync-triggered refresh of the profile display -/

/-- `CoreSyncSystem.syncUserData`.  `localDB` models `window.localDB` when
available together with its `getUserProfile()` result (absence and rejection
both fall through to local storage, so `some none` covers a null result and
`none` covers the unavailable/failed branches).  Both display paths are
guarded by `profile && !this.state.isEditingProfile`.  Returns the updated
store and DOM plus the function's boolean result. -/
def coreSyncUserData (editing : Bool) (localDB : Option (Option StoreVal))
    (st : Store) (dom : Dom) : Store × Dom × Bool :=
  match localDB with
  | some (some p) =>
      if ¬editing then (st, coreUpdateProfileDisplay dom p, true)
      else
        -- fall through to the local-storage branch, same guard
        localFallback st dom
  | _ => localFallback st dom
where
  localFallback (st : Store) (dom : Dom) : Store × Dom × Bool :=
    match coreGetUserProfile st with
    | (st', some p) =>
        if ¬editing then (st', coreUpdateProfileDisplay dom p, true)
        else (st', dom, false)
    | (st', none) => (st', dom, false)

/-- `UnifiedSyncManager.syncUserData`.  `apiProfile = some (some p)` models
an authenticated `apiService` whose `getUserProfile()` resolved to `p`
(a null result or a rejection falls through to local storage).  The
`editing` parameter is the manager's `state.isEditingProfile` flag — carried
in its state but never read by this method: both display updates run
unconditionally. -/
def unifiedSyncUserData (ok : Bool) (_editing : Bool)
    (apiProfile : Option (Option JsObj)) (st : Store) (dom : Dom)
    (nowIso : String) (now : Int) : Store × Dom × Option StoreVal :=
  match apiProfile with
  | some (some p) =>
      let st1 :=
        match unifiedSaveProfile ok st p nowIso now with
        | .ok (st', _) => st'
        | .error _ => st
      (st1, unifiedUpdateProfileDisplay dom (.jobj p), some (.jobj p))
  | _ =>
      match unifiedGetProfile st with
      | some p => (st, unifiedUpdateProfileDisplay dom p, some p)
      | none => (st, dom, none)

/-! ## History cache -/

/-- Read `JSON.parse(localStorage.getItem('analysisHistory')) || []` for a
mutating caller: an absent key gives `[]` (`JSON.parse(null)` is `null`), a
corrupt value makes `JSON.parse` throw, a stored empty string parses to `""`
which `|| []` replaces, and any other non-array is a truthy value on which
the subsequent `unshift`/`filter` call throws a `TypeError`.  Both throwing
cases are rethrown by the callers' `catch` blocks. -/
def readHistoryList (st : Store) : Except Unit (List JsObj) :=
  match kvGet st "analysisHistory" with
  | none => .ok []
  | some (.good (.jarr l)) => .ok l
  | some (.good (.jstr s)) => if s = "" then .ok [] else .error ()
  | some (.good (.jobj _)) => .error ()
  | some .corrupt => .error ()

/-- Timestamp sort key used by the `getAll` readers'
`sort((a,b) => b.timestamp - a.timestamp)`.  A non-numeric or absent
timestamp makes the JS comparator NaN, whose effect is engine-defined; the
model assigns such records key 0 and is only relied on for lists with
numeric timestamps. -/
def tsOf (r : JsObj) : Int :=
  match kvGet r "timestamp" with
  | some (.num n) => n
  | _ => 0

/-- `CoreSyncSystem.getAllAnalysisHistory`: parse the stored list and sort it
descending by `timestamp`; any failure (corrupt JSON, stored non-array whose
`.sort` throws) is caught and yields `[]`.  The function performs no store
write — in particular it never removes the offending key. -/
def coreGetAllAnalysisHistory (st : Store) : List JsObj :=
  match kvGet st "analysisHistory" with
  | none => []
  | some (.good (.jarr l)) => l.mergeSort (fun a b => tsOf b ≤ tsOf a)
  | some (.good (.jstr _)) => []
  | some (.good (.jobj _)) => []
  | some .corrupt => []

/-- The record actually stored by `addAnalysisRecord`
(`{...record, id: Date.now()+rand, timestamp: record.timestamp || Date.now(),
createdAt: iso}`): the freshly minted id and `createdAt` overwrite any
caller-supplied values; `timestamp` keeps a truthy caller value. -/
def addRecordData (r : JsObj) (now rand : Int) (iso : String) : JsObj :=
  kvSet (kvSet (kvSet r "id" (.num (now + rand)))
      "timestamp" (jsOrD (kvGet r "timestamp") (.num now)))
    "createdAt" (.str iso)

/-- `CoreSyncSystem.addAnalysisRecord`: build the stored record, prepend it
to the parsed list, truncate to the first 100 entries
(`config.maxHistoryRecords`), persist with raw `localStorage.setItem`
(a storage failure throws and is rethrown), trigger the sync signal, and
return the stored record.  The `coreAnalysisHistoryUpdated` dispatch reaches
`syncAnalysisHistory`, which touches the store only through `window.localDB`
(not modelled here: absent). -/
def coreAddAnalysisRecord (ok : Bool) (st : Store) (r : JsObj)
    (now rand : Int) (iso : String) : Except Unit (Store × JsObj) := do
  let old ← readHistoryList st
  let recordData := addRecordData r now rand iso
  let limited := (recordData :: old).take 100
  let st1 ← rawSetItem ok st "analysisHistory" (.good (.jarr limited))
  let st2 := coreTriggerSync ok st1 now
  return (st2, recordData)

/-- The id-matching cascade shared verbatim by
`CoreSyncSystem.deleteAnalysisRecord` and
`DBManager.batchDeleteAnalysisRecords`: a record matches the target id when
its `id` strictly equals it, loosely equals it, equals `parseInt` of a
string target (numeric record id), or equals `toString` of a numeric target
(string record id).  A record without an `id` property never matches
(`undefined` fails every branch). -/
def idCoerciveMatch (rid : Option JsVal) (id : JsVal) : Bool :=
  match rid with
  | none => false
  | some rv =>
      if rv = id then true
      else if jsLooseEq rv id then true
      else
        match rv, id with
        | .num n, .str s => jsParseInt s = some n
        | .str s, .num m => s = jsIntToString m
        | _, _ => false

/-- `CoreSyncSystem.deleteAnalysisRecord`: filter out every record matching
the id under the coercing cascade, persist the remainder with raw
`localStorage.setItem`, trigger sync, and return the boolean
`updatedRecords.length !== historyRecords.length` — whether anything was
removed, not how much. -/
def coreDeleteAnalysisRecord (ok : Bool) (st : Store) (id : JsVal)
    (now : Int) : Except Unit (Store × Bool) := do
  let old ← readHistoryList st
  let kept := old.filter fun rec => !idCoerciveMatch (kvGet rec "id") id
  let st1 ← rawSetItem ok st "analysisHistory" (.good (.jarr kept))
  let st2 := coreTriggerSync ok st1 now
  return (st2, decide (kept.length ≠ old.length))

/-- `DBManager.getUserSpecificKey`: suffix the base key with
`currentUser.id || currentUser.username || 'default'` (template-literal
string coercion); an absent or unparseable `currentUser`, or one without
those fields, yields the `_default` suffix. -/
def getUserSpecificKey (st : Store) (base : String) : String :=
  match kvGet st "currentUser" with
  | some (.good v) =>
      base ++ "_" ++
        jsTemplate (jsOrD (svGet v "id") (jsOrD (svGet v "username") (.str "default")))
  | _ => base ++ "_default"

/-- `DBManager.batchDeleteAnalysisRecords`, local (non-API) path: read the
plain `analysisHistory` key, drop every record matching *some* target id
under the coercing cascade, persist through `_saveHistoryToLocalStorage`
(which writes the user-specific key and swallows its own storage failure),
and return the number of records removed. -/
def dbBatchDeleteAnalysisRecords (ok : Bool) (st : Store) (ids : List JsVal) :
    Except Unit (Store × Nat) := do
  let old ← readHistoryList st
  let kept := old.filter fun rec =>
    !ids.any fun id => idCoerciveMatch (kvGet rec "id") id
  let deletedCount := old.length - kept.length
  let st1 :=
    (secureSetItem ok st (getUserSpecificKey st "analysisHistory")
      (.good (.jarr kept))).1
  return (st1, deletedCount)

/-! ## Sync scheduler

`syncAllData` is an `async` method; its synchronous prefix (the `isSyncing`
guard and the flag set) runs before the first suspension point, the two
sub-syncs run during the pass, and the `finally` clears the flag when the
pass completes.  The three phases are embedded separately so that a second
request arriving while the first pass is suspended can be placed between
them. -/

structure SyncState where
  isSyncing : Bool
  initialized : Bool
  syncAttempts : Nat
  userSyncRuns : Nat
  historySyncRuns : Nat
  lastSyncTime : Int
deriving DecidableEq, Repr

/-- Synchronous prefix of `CoreSyncSystem.syncAllData`: a request made while
`isSyncing` is set (or before initialization) returns immediately with the
state untouched — dropped, not queued; otherwise the pass starts, setting
the flag.  The boolean reports whether the pass started. -/
def coreSyncAllData_begin (s : SyncState) : SyncState × Bool :=
  if s.isSyncing ∨ ¬s.initialized then (s, false)
  else ({ s with isSyncing := true, syncAttempts := s.syncAttempts + 1 }, true)

/-- The body of a full-sync pass: `syncUserData` and `syncAnalysisHistory`
each run once (counted here; their store/DOM effects are modelled by
`coreSyncUserData`/`unifiedSyncUserData`). -/
def syncAllData_runSubSyncs (s : SyncState) : SyncState :=
  { s with userSyncRuns := s.userSyncRuns + 1,
           historySyncRuns := s.historySyncRuns + 1 }

/-- The tail of `syncAllData`: record `lastSyncTime` and release the mutex in
`finally`, whether or not either sub-sync succeeded. -/
def syncAllData_finish (s : SyncState) (now : Int) : SyncState :=
  { s with isSyncing := false, lastSyncTime := now }

/-- Synchronous prefix of `UnifiedSyncManager.syncAllData`: same mutex,
without the initialization condition. -/
def unifiedSyncAllData_begin (s : SyncState) : SyncState × Bool :=
  if s.isSyncing then (s, false)
  else ({ s with isSyncing := true, syncAttempts := s.syncAttempts + 1 }, true)

/-- A full-sync pass of either manager, given its begin phase: run the
sub-syncs and finish, when the begin admitted the request. -/
def syncPass (begin_ : SyncState → SyncState × Bool) (s : SyncState)
    (now : Int) : SyncState × Bool :=
  match begin_ s with
  | (s1, true) => (syncAllData_finish (syncAllData_runSubSyncs s1) now, true)
  | (s1, false) => (s1, false)

/-- Two back-to-back sync requests where the second arrives while the first
pass is suspended at its first `await`: the first begins, the second then
runs in full (begin/body/finish) before the first resumes, and the first
completes.  Returns the final state and each request's admission flag. -/
def backToBackSync (begin_ : SyncState → SyncState × Bool) (s : SyncState)
    (now : Int) : SyncState × Bool × Bool :=
  let (s1, r1) := begin_ s
  let (s2, r2) := syncPass begin_ s1 now
  let s3 := if r1 then syncAllData_finish (syncAllData_runSubSyncs s2) now else s2
  (s3, r1, r2)

/-- A history record with equal numeric id and timestamp, for concrete
stores. -/
def mkTsRec (i : Int) : JsObj := [("id", .num i), ("timestamp", .num i)]

/-- A full stored history of 100 records whose timestamps ascend positionally
(`1` at the front of the stored list, `100` at the back): the positionally
last entry is the newest by timestamp, the front one the oldest. -/
def full100 : List JsObj := (List.range 100).map fun i => mkTsRec (i + 1 : Nat)

/-! ## Association-list lemmas -/

theorem kvGet_kvSet_self {α : Type} (l : List (String × α)) (k : String)
    (v : α) : kvGet (kvSet l k v) k = some v := by
  induction l with
  | nil => simp [kvSet, kvGet]
  | cons hd tl ih =>
      obtain ⟨k', v'⟩ := hd
      by_cases h : k' = k
      · subst h; simp [kvSet, kvGet]
      · simp [kvSet, kvGet, h, ih]

theorem kvGet_kvSet_ne {α : Type} (l : List (String × α)) {k k' : String}
    (v : α) (h : k' ≠ k) : kvGet (kvSet l k v) k' = kvGet l k' := by
  induction l with
  | nil => simp [kvSet, kvGet, Ne.symm h]
  | cons hd tl ih =>
      obtain ⟨k₀, v₀⟩ := hd
      by_cases h₀ : k₀ = k
      · subst h₀; simp [kvSet, kvGet, Ne.symm h]
      · by_cases h₁ : k₀ = k'
        · subst h₁; simp [kvSet, kvGet, h₀]
        · simp [kvSet, kvGet, h₀, h₁, ih]

theorem kvGet_kvRemove_ne {α : Type} (l : List (String × α)) {k k' : String}
    (h : k' ≠ k) : kvGet (kvRemove l k) k' = kvGet l k' := by
  induction l with
  | nil => simp [kvRemove, kvGet]
  | cons hd tl ih =>
      obtain ⟨k₀, v₀⟩ := hd
      by_cases h₀ : k₀ = k
      · subst h₀; simp [kvRemove, kvGet, Ne.symm h, ih]
      · by_cases h₁ : k₀ = k'
        · subst h₁; simp [kvRemove, kvGet, h₀]
        · simp [kvRemove, kvGet, h₀, h₁, ih]

theorem mem_kvKeys_of_mem {α : Type} {l : List (String × α)} {k : String}
    {v : α} (h : (k, v) ∈ l) : k ∈ kvKeys l := by
  simpa [kvKeys] using List.mem_map_of_mem Prod.fst h

theorem kvGet_eq_none_of_not_mem {α : Type} {l : List (String × α)}
    {k : String} (h : k ∉ kvKeys l) : kvGet l k = none := by
  induction l with
  | nil => rfl
  | cons hd tl ih =>
      obtain ⟨k₀, v₀⟩ := hd
      have h1 : k ≠ k₀ := by
        intro hk; exact h (by simp [kvKeys, hk])
      have h2 : k ∉ kvKeys tl := by
        intro hk
        exact h (by
          simp only [kvKeys, List.map_cons, List.mem_cons]
          exact Or.inr (by simpa [kvKeys] using hk))
      simp [kvGet, Ne.symm h1, ih h2]

theorem objSpread_cons (base : JsObj) (k : String) (v : JsVal) (tl : JsObj) :
    objSpread base ((k, v) :: tl) = objSpread (kvSet base k v) tl := rfl

theorem kvGet_objSpread_not_mem :
    ∀ (p : JsObj) (base : JsObj) (k : String), k ∉ kvKeys p →
      kvGet (objSpread base p) k = kvGet base k
  | [], _, _, _ => rfl
  | (k₀, v₀) :: tl, base, k, h => by
      have hne : k ≠ k₀ := by
        intro hk; exact h (by simp [kvKeys, hk])
      have htl : k ∉ kvKeys tl := by
        intro hk
        exact h (by
          simp only [kvKeys, List.map_cons, List.mem_cons]
          exact Or.inr (by simpa [kvKeys] using hk))
      rw [objSpread_cons, kvGet_objSpread_not_mem tl _ k htl,
        kvGet_kvSet_ne _ _ hne]

theorem kvGet_objSpread_mem :
    ∀ (p : JsObj) (base : JsObj) (k : String) (v : JsVal),
      (kvKeys p).Nodup → (k, v) ∈ p → kvGet (objSpread base p) k = some v
  | [], _, _, _, _, hmem => absurd hmem (List.not_mem_nil _)
  | (k₀, v₀) :: tl, base, k, v, hnd, hmem => by
      rw [show kvKeys ((k₀, v₀) :: tl) = k₀ :: kvKeys tl from rfl,
        List.nodup_cons] at hnd
      rcases List.mem_cons.mp hmem with heq | hmem'
      · obtain ⟨rfl, rfl⟩ := Prod.mk.inj heq
        rw [objSpread_cons, kvGet_objSpread_not_mem tl _ k hnd.1,
          kvGet_kvSet_self]
      · rw [objSpread_cons]
        exact kvGet_objSpread_mem tl (kvSet base k₀ v₀) k v hnd.2 hmem'

theorem length_filter_add_length_filter_not {α : Type} (l : List α)
    (p : α → Bool) :
    (l.filter p).length + (l.filter fun a => !p a).length = l.length := by
  induction l with
  | nil => rfl
  | cons hd tl ih =>
      cases h : p hd <;> simp [List.filter_cons, h] <;> omega

theorem length_filter_not_ne_iff {α : Type} (l : List α) (p : α → Bool) :
    ((l.filter fun a => !p a).length ≠ l.length) ↔ ∃ a ∈ l, p a = true := by
  rw [ne_eq, List.filter_length_eq_length]
  simp

theorem pairwise_desc_getLastOpt_min (l : List JsObj)
    (hp : List.Pairwise (fun a b => tsOf b ≤ tsOf a) l) {x : JsObj}
    (hx : l.getLast? = some x) : ∀ y ∈ l, tsOf x ≤ tsOf y := by
  induction l with
  | nil => cases hx
  | cons hd tl ih =>
      rcases List.pairwise_cons.mp hp with ⟨hhd, htl⟩
      intro y hy
      cases tl with
      | nil =>
          simp only [List.getLast?_singleton] at hx
          cases hx
          rcases List.mem_singleton.mp hy with rfl
          exact le_refl _
      | cons b tl' =>
          have hx' : (b :: tl').getLast? = some x := by
            simpa [List.getLast?_cons_cons] using hx
          rcases List.mem_cons.mp hy with rfl | hy'
          · exact hhd x (List.mem_of_getLast?_eq_some hx')
          · exact ih htl hx' y hy'

/-! ## Claim theorems -/

/-- C2: at most one full-sync pass is ever in flight.  For both
`CoreSyncSystem.syncAllData` and `UnifiedSyncManager.syncAllData`, a request
arriving while `isSyncing` is set returns immediately with the state
untouched (dropped, not queued); and for two back-to-back requests from an
idle initialized state — the second arriving while the first pass is
suspended — the first is admitted, the second is dropped, and each sub-sync
(`syncUserData`, `syncAnalysisHistory`) runs exactly once, with the mutex
released at the end. -/
theorem syncAllData_mutex_single_pass (s : SyncState) (now : Int)
    (hIdle : s.isSyncing = false) (hInit : s.initialized = true) :
    (∀ t : SyncState, t.isSyncing = true → coreSyncAllData_begin t = (t, false)) ∧
    (∀ t : SyncState, t.isSyncing = true → unifiedSyncAllData_begin t = (t, false)) ∧
    backToBackSync coreSyncAllData_begin s now =
      (⟨false, s.initialized, s.syncAttempts + 1, s.userSyncRuns + 1,
        s.historySyncRuns + 1, now⟩, true, false) ∧
    backToBackSync unifiedSyncAllData_begin s now =
      (⟨false, s.initialized, s.syncAttempts + 1, s.userSyncRuns + 1,
        s.historySyncRuns + 1, now⟩, true, false) := by
  refine ⟨fun t ht => ?_, fun t ht => ?_, ?_, ?_⟩
  · simp [coreSyncAllData_begin, ht]
  · simp [unifiedSyncAllData_begin, ht]
  · simp [backToBackSync, syncPass, coreSyncAllData_begin, hIdle, hInit,
      syncAllData_runSubSyncs, syncAllData_finish]
  · simp [backToBackSync, syncPass, unifiedSyncAllData_begin, hIdle,
      syncAllData_runSubSyncs, syncAllData_finish]

/-- Witness for C2 at a concrete idle, initialized state. -/
theorem syncAllData_mutex_single_pass_witness :
    backToBackSync coreSyncAllData_begin ⟨false, true, 0, 0, 0, 0⟩ 5 =
      (⟨false, true, 1, 1, 1, 5⟩, true, false) ∧
    backToBackSync unifiedSyncAllData_begin ⟨false, true, 0, 0, 0, 0⟩ 5 =
      (⟨false, true, 1, 1, 1, 5⟩, true, false) := by
  have h := syncAllData_mutex_single_pass ⟨false, true, 0, 0, 0, 0⟩ 5 rfl rfl
  exact ⟨h.2.2.1, h.2.2.2⟩

/-- C1 (failing input): with editing flagged true, a storage-event-triggered
`UnifiedSyncManager.syncUserData` still rewrites the profile-name element
`#user-name` from "Bob" to the stored fullname "Alice" — the manager keeps
`isEditingProfile` in its state but `syncUserData` never reads it.  On the
same scenario, `CoreSyncSystem.syncUserData` honours the flag and leaves the
DOM untouched. -/
theorem unifiedSyncUserData_ignores_editing_flag :
    unifiedSyncUserData true true none
        [("unified_user_profile", .good (.jobj [("fullname", .str "Alice")]))]
        [⟨"user-name", [], "Bob", false, false, false⟩] "iso" 0 =
      ([("unified_user_profile", .good (.jobj [("fullname", .str "Alice")]))],
        [⟨"user-name", [], "Alice", false, false, false⟩],
        some (.jobj [("fullname", .str "Alice")])) ∧
    coreSyncUserData true none
        [("core_user_profile", .good (.jobj [("fullname", .str "Alice")]))]
        [⟨"user-name", [], "Bob", false, false, false⟩] =
      ([("core_user_profile", .good (.jobj [("fullname", .str "Alice")]))],
        [⟨"user-name", [], "Bob", false, false, false⟩], false) := by
  constructor
  · rfl
  · rfl

/-- C5: for a valid profile `p` (unique keys, no caller-supplied `id` or
`updatedAt` — the data model fixes `id` and owns `updatedAt`),
`saveUserProfile` followed by `getUserProfile` in the same context returns
the saved profile: equal to `p` on every caller-supplied field, with id
`"currentUser"` and `updatedAt` equal to the save-call timestamp (hence ≥
the call time). -/
theorem saveProfile_getProfile_roundtrip (st : Store) (dom : Dom)
    (editing : Bool) (p : JsObj) (nowIso : String) (now : Int)
    (hnd : (kvKeys p).Nodup) (hid : "id" ∉ kvKeys p)
    (hupd : "updatedAt" ∉ kvKeys p) :
    ∃ st' dom', coreSaveUserProfile true st editing dom p nowIso now =
        .ok (st', dom', coreMergedProfile p nowIso) ∧
      (coreGetUserProfile st').2 = some (.jobj (coreMergedProfile p nowIso)) ∧
      (∀ k v, (k, v) ∈ p → kvGet (coreMergedProfile p nowIso) k = some v) ∧
      kvGet (coreMergedProfile p nowIso) "id" = some (.str "currentUser") ∧
      kvGet (coreMergedProfile p nowIso) "updatedAt" = some (.str nowIso) := by
  refine ⟨_, _, rfl, ?_, ?_, ?_, ?_⟩
  · have hc : kvGet (kvSet (kvSet st "core_user_profile"
        (.good (.jobj (coreMergedProfile p nowIso)))) "core_sync_trigger"
        (.good (.jstr (jsIntToString now)))) "core_user_profile" =
        some (.good (.jobj (coreMergedProfile p nowIso))) := by
      rw [kvGet_kvSet_ne _ _ (by decide), kvGet_kvSet_self]
    simp [coreGetUserProfile, firstStored, coreTriggerSync, secureSetItem, hc]
  · intro k v hkv
    have hkne : k ≠ "updatedAt" := fun h => hupd (h ▸ mem_kvKeys_of_mem hkv)
    simp only [coreMergedProfile]
    rw [kvGet_kvSet_ne _ _ hkne, kvGet_objSpread_mem p _ k v hnd hkv]
  · simp only [coreMergedProfile]
    rw [kvGet_kvSet_ne _ _ (by decide), kvGet_objSpread_not_mem p _ _ hid]
    rfl
  · simp only [coreMergedProfile]
    rw [kvGet_kvSet_self]

/-- Witness for C5 at a concrete profile. -/
theorem saveProfile_getProfile_roundtrip_witness :
    ∃ st' dom', coreSaveUserProfile true [] false []
        [("fullname", .str "Alice"), ("email", .str "a@b.c")] "2024-01-01T00:00:00Z" 7 =
        .ok (st', dom',
          coreMergedProfile [("fullname", .str "Alice"), ("email", .str "a@b.c")]
            "2024-01-01T00:00:00Z") ∧
      (coreGetUserProfile st').2 =
        some (.jobj (coreMergedProfile
          [("fullname", .str "Alice"), ("email", .str "a@b.c")]
          "2024-01-01T00:00:00Z")) ∧
      (∀ k v, (k, v) ∈ ([("fullname", .str "Alice"), ("email", .str "a@b.c")] : JsObj) →
        kvGet (coreMergedProfile [("fullname", .str "Alice"), ("email", .str "a@b.c")]
          "2024-01-01T00:00:00Z") k = some v) ∧
      kvGet (coreMergedProfile [("fullname", .str "Alice"), ("email", .str "a@b.c")]
        "2024-01-01T00:00:00Z") "id" = some (.str "currentUser") ∧
      kvGet (coreMergedProfile [("fullname", .str "Alice"), ("email", .str "a@b.c")]
        "2024-01-01T00:00:00Z") "updatedAt" = some (.str "2024-01-01T00:00:00Z") :=
  saveProfile_getProfile_roundtrip [] [] false _ "2024-01-01T00:00:00Z" 7
    (by decide) (by decide) (by decide)

/-- C6 counterexample: with the storage engine failing (`ok = false`),
`UnifiedSyncManager.saveProfile` still returns the merged profile with no
error — `secureStorage.setItem`'s `false` result is discarded — and the
store is left unchanged (the canonical key holds nothing).  The claimed
"rejects when the storage adapter's set reports failure" is false for this
cited implementation. -/
theorem unifiedSaveProfile_swallows_write_failure :
    unifiedSaveProfile false [] [("fullname", .str "Alice")] "iso" 7 =
      .ok ([], unifiedMergedProfile [("fullname", .str "Alice")] "iso") ∧
    kvGet ([] : Store) "unified_user_profile" = none := ⟨rfl, rfl⟩

/-- C6 amended: `CoreSyncSystem.saveUserProfile` propagates an error exactly
when the canonical store write fails (it checks `secureStorage.setItem`'s
boolean and throws on `false`, and never throws when the write succeeds);
`UnifiedSyncManager.saveProfile`, by contrast, never propagates a
store-write failure — it returns the merged profile whatever the write
outcome, leaving the store unchanged when writes fail. -/
theorem saveProfile_error_propagation (st : Store) (dom : Dom)
    (editing : Bool) (p : JsObj) (nowIso : String) (now : Int) :
    coreSaveUserProfile false st editing dom p nowIso now = .error () ∧
    (∃ st' dom', coreSaveUserProfile true st editing dom p nowIso now =
      .ok (st', dom', coreMergedProfile p nowIso)) ∧
    (∀ ok : Bool, ∃ st', unifiedSaveProfile ok st p nowIso now =
      .ok (st', unifiedMergedProfile p nowIso)) ∧
    unifiedSaveProfile false st p nowIso now =
      .ok (st, unifiedMergedProfile p nowIso) :=
  ⟨rfl, ⟨_, _, rfl⟩, fun _ => ⟨_, rfl⟩, rfl⟩

/-- Witness for C6's amended propagation behaviour at a concrete state. -/
theorem saveProfile_error_propagation_witness :
    coreSaveUserProfile false [] false [] [("fullname", .str "A")] "t" 1 = .error () ∧
    (∃ st' dom', coreSaveUserProfile true [] false [] [("fullname", .str "A")] "t" 1 =
      .ok (st', dom', coreMergedProfile [("fullname", .str "A")] "t")) ∧
    (∀ ok : Bool, ∃ st', unifiedSaveProfile ok [] [("fullname", .str "A")] "t" 1 =
      .ok (st', unifiedMergedProfile [("fullname", .str "A")] "t")) ∧
    unifiedSaveProfile false [] [("fullname", .str "A")] "t" 1 =
      .ok ([], unifiedMergedProfile [("fullname", .str "A")] "t") :=
  saveProfile_error_propagation [] [] false [("fullname", .str "A")] "t" 1

/-- C10: a successful `UnifiedSyncManager.saveProfile` (storage writes
succeeding, no caller-supplied `id`) persists the same merged profile —
id defaulted to `"currentUser"`, `updatedAt` refreshed to the call
timestamp — under both the canonical key `unified_user_profile` and the
legacy key `userProfileData`, so a reader of the legacy key observes the
saved profile. -/
theorem unifiedSaveProfile_dual_write (st : Store) (p : JsObj)
    (nowIso : String) (now : Int) (hid : "id" ∉ kvKeys p) :
    ∃ st', unifiedSaveProfile true st p nowIso now =
        .ok (st', unifiedMergedProfile p nowIso) ∧
      kvGet st' "unified_user_profile" =
        some (.good (.jobj (unifiedMergedProfile p nowIso))) ∧
      kvGet st' "userProfileData" =
        some (.good (.jobj (unifiedMergedProfile p nowIso))) ∧
      kvGet (unifiedMergedProfile p nowIso) "id" = some (.str "currentUser") ∧
      kvGet (unifiedMergedProfile p nowIso) "updatedAt" = some (.str nowIso) := by
  refine ⟨_, rfl, ?_, ?_, ?_, ?_⟩
  · show kvGet (kvSet (kvSet (kvSet (kvSet st "unified_user_profile" _)
      "userProfileData" _) "unified_sync_trigger" _) "unified_last_sync_time" _)
      "unified_user_profile" = _
    rw [kvGet_kvSet_ne _ _ (by decide), kvGet_kvSet_ne _ _ (by decide),
      kvGet_kvSet_ne _ _ (by decide), kvGet_kvSet_self]
  · show kvGet (kvSet (kvSet (kvSet (kvSet st "unified_user_profile" _)
      "userProfileData" _) "unified_sync_trigger" _) "unified_last_sync_time" _)
      "userProfileData" = _
    rw [kvGet_kvSet_ne _ _ (by decide), kvGet_kvSet_ne _ _ (by decide),
      kvGet_kvSet_self]
  · simp only [unifiedMergedProfile]
    rw [kvGet_kvSet_ne _ _ (by decide), kvGet_objSpread_not_mem p _ _ hid,
      kvGet_eq_none_of_not_mem hid]
    rfl
  · simp only [unifiedMergedProfile]
    rw [kvGet_kvSet_self]

/-- Witness for C10 at a concrete profile. -/
theorem unifiedSaveProfile_dual_write_witness :
    ∃ st', unifiedSaveProfile true [] [("fullname", .str "Alice")] "t1" 3 =
        .ok (st', unifiedMergedProfile [("fullname", .str "Alice")] "t1") ∧
      kvGet st' "unified_user_profile" =
        some (.good (.jobj (unifiedMergedProfile [("fullname", .str "Alice")] "t1"))) ∧
      kvGet st' "userProfileData" =
        some (.good (.jobj (unifiedMergedProfile [("fullname", .str "Alice")] "t1"))) ∧
      kvGet (unifiedMergedProfile [("fullname", .str "Alice")] "t1") "id" =
        some (.str "currentUser") ∧
      kvGet (unifiedMergedProfile [("fullname", .str "Alice")] "t1") "updatedAt" =
        some (.str "t1") :=
  unifiedSaveProfile_dual_write [] [("fullname", .str "Alice")] "t1" 3 (by decide)

/-- C7 counterexample: a profile stored only under the legacy key
`userProfileData` is found and returned by `CoreSyncSystem.getUserProfile`,
but the store comes back unchanged: the canonical key `core_user_profile`
still holds nothing afterwards — no migration-on-read happens in this cited
`getProfile`. -/
theorem coreGetUserProfile_no_migration :
    coreGetUserProfile [("userProfileData", .good (.jobj [("fullname", .str "Alice")]))] =
      ([("userProfileData", .good (.jobj [("fullname", .str "Alice")]))],
        some (.jobj [("fullname", .str "Alice")])) ∧
    kvGet (coreGetUserProfile
        [("userProfileData", .good (.jobj [("fullname", .str "Alice")]))]).1
      "core_user_profile" = none := ⟨rfl, rfl⟩

/-- C7 amended: both cited `getProfile` implementations resolve from local
storage only (the remote API is consulted by `syncUserData`, not by
`getProfile`): the canonical key first, then the fixed legacy list in order,
null when nothing is found.  `UnifiedSyncSystem.getUserProfile` rewrites
legacy-found data under its canonical key (migration-on-read);
`CoreSyncSystem.getUserProfile` returns legacy-found data with the store
unchanged. -/
theorem getUserProfile_resolution_order :
    (∀ (st : Store) (v : StoreVal),
      kvGet st "core_user_profile" = some (.good v) →
      coreGetUserProfile st = (st, some v)) ∧
    (∀ (st : Store) (v : StoreVal),
      kvGet st "core_user_profile" = none →
      kvGet st "userProfileData" = some (.good v) →
      coreGetUserProfile st = (st, some v)) ∧
    (∀ (st : Store) (v : StoreVal),
      kvGet st "core_user_profile" = none →
      kvGet st "userProfileData" = none →
      kvGet st "unified_user_profile" = some (.good v) →
      coreGetUserProfile st = (st, some v)) ∧
    (∀ st : Store,
      kvGet st "core_user_profile" = none →
      kvGet st "userProfileData" = none →
      kvGet st "unified_user_profile" = none →
      kvGet st "ultimate_user_profile" = none →
      kvGet st "currentUser" = none →
      coreGetUserProfile st = (st, none)) ∧
    (∀ (st : Store) (v : StoreVal),
      kvGet st "unified_user_profile" = none →
      kvGet st "userProfileData" = some (.good v) →
      unifiedSystemGetUserProfile st =
        (kvSet st "unified_user_profile" (.good v), some v)) := by
  refine ⟨?_, ?_, ?_, ?_, ?_⟩
  · intro st v h
    simp [coreGetUserProfile, firstStored, h]
  · intro st v h1 h2
    simp [coreGetUserProfile, firstStored, coreLegacyProfileKeys, h1, h2]
  · intro st v h1 h2 h3
    simp [coreGetUserProfile, firstStored, coreLegacyProfileKeys, h1, h2, h3]
  · intro st h1 h2 h3 h4 h5
    simp [coreGetUserProfile, firstStored, coreLegacyProfileKeys, h1, h2, h3, h4, h5]
  · intro st v h1 h2
    simp [unifiedSystemGetUserProfile, h1, h2]

/-- Witness for C7's amended resolution-order facts at concrete stores. -/
theorem getUserProfile_resolution_order_witness :
    coreGetUserProfile [("core_user_profile", .good (.jobj [("a", .num 1)])),
        ("userProfileData", .good (.jobj [("b", .num 2)]))] =
      ([("core_user_profile", .good (.jobj [("a", .num 1)])),
        ("userProfileData", .good (.jobj [("b", .num 2)]))],
        some (.jobj [("a", .num 1)])) ∧
    coreGetUserProfile ([] : Store) = ([], none) ∧
    unifiedSystemGetUserProfile [("userProfileData", .good (.jobj [("b", .num 2)]))] =
      (kvSet [("userProfileData", .good (.jobj [("b", .num 2)]))]
        "unified_user_profile" (.good (.jobj [("b", .num 2)])),
        some (.jobj [("b", .num 2)])) := by
  have h := getUserProfile_resolution_order
  exact ⟨h.1 _ _ rfl, h.2.2.2.1 [] rfl rfl rfl rfl rfl, h.2.2.2.2 _ _ rfl rfl⟩

/-- C9 counterexample: corrupt JSON under the legacy key `userProfileData`
(with the canonical key empty) makes `CoreSyncSystem.getUserProfile` return
null — but the removal targets the canonical key `core_user_profile`, not
the key holding the corrupt data: the corrupt `userProfileData` entry is
still in the store afterwards, so the failure repeats on every read.
`getAllAnalysisHistory` on a corrupt `analysisHistory` key returns `[]` and
its source contains no key removal at all. -/
theorem parse_failure_wrong_key_cleared :
    coreGetUserProfile [("userProfileData", .corrupt)] =
      ([("userProfileData", .corrupt)], none) ∧
    kvGet (coreGetUserProfile [("userProfileData", .corrupt)]).1
      "userProfileData" = some .corrupt ∧
    coreGetAllAnalysisHistory [("analysisHistory", .corrupt)] = [] :=
  ⟨rfl, rfl, rfl⟩

/-- C9 amended: on a JSON parse failure every read returns the absent-data
result (`getUserProfile` null, `getAllAnalysisHistory` `[]`), but the
proactive clearing removes only the canonical profile key
`core_user_profile`, whichever key held the corrupt data — corrupt data
under a legacy key survives — and `getAllAnalysisHistory` removes
nothing. -/
theorem parse_failure_clears_canonical_only :
    (∀ st : Store, kvGet st "core_user_profile" = some .corrupt →
      coreGetUserProfile st = (kvRemove st "core_user_profile", none)) ∧
    (∀ st : Store, kvGet st "core_user_profile" = none →
      kvGet st "userProfileData" = some .corrupt →
      coreGetUserProfile st = (kvRemove st "core_user_profile", none) ∧
      kvGet (kvRemove st "core_user_profile") "userProfileData" = some .corrupt) ∧
    (∀ st : Store, kvGet st "analysisHistory" = some .corrupt →
      coreGetAllAnalysisHistory st = []) := by
  refine ⟨?_, ?_, ?_⟩
  · intro st h
    simp [coreGetUserProfile, firstStored, h]
  · intro st h1 h2
    refine ⟨by simp [coreGetUserProfile, firstStored, coreLegacyProfileKeys, h1, h2], ?_⟩
    rw [kvGet_kvRemove_ne _ (by decide), h2]
  · intro st h
    simp [coreGetAllAnalysisHistory, h]

/-- Witness for C9's amended clearing behaviour at concrete stores. -/
theorem parse_failure_clears_canonical_only_witness :
    coreGetUserProfile [("core_user_profile", .corrupt), ("x", .good (.jstr "y"))] =
      (kvRemove [("core_user_profile", .corrupt), ("x", .good (.jstr "y"))]
        "core_user_profile", none) ∧
    coreGetAllAnalysisHistory [("analysisHistory", .corrupt)] = [] := by
  have h := parse_failure_clears_canonical_only
  exact ⟨h.1 _ rfl, h.2.2 _ rfl⟩

/-- C3 counterexample: adding to a full stored list of 100 records whose
timestamps ascend positionally (oldest, timestamp 1, at the front), the
persisted result keeps the oldest-by-timestamp record (`mkTsRec 1`) and
evicts the positionally last record (`mkTsRec 100`) — which is the *newest*
of the stored entries, every stored timestamp being ≥ that of `mkTsRec 1`.
The eviction is positional (`slice(0, 100)` after `unshift`), not
oldest-by-timestamp. -/
theorem addAnalysisRecord_evicts_positional_last :
    coreAddAnalysisRecord true [("analysisHistory", .good (.jarr full100))]
        [("timestamp", .num 200)] 1000 0 "iso" =
      .ok ([("analysisHistory", .good (.jarr
          (addRecordData [("timestamp", .num 200)] 1000 0 "iso" :: full100.take 99))),
        ("core_sync_trigger", .good (.jstr "1000"))],
        addRecordData [("timestamp", .num 200)] 1000 0 "iso") ∧
    mkTsRec 1 ∈ full100.take 99 ∧
    mkTsRec 100 ∉ full100.take 99 ∧
    mkTsRec 100 ∈ full100 ∧
    full100.all (fun r => tsOf (mkTsRec 1) ≤ tsOf r) = true := by
  refine ⟨rfl, by decide, by decide, by decide, by decide⟩

/-- C3 amended: `addAnalysisRecord` never persists more than 100 entries;
when the stored list already has 100 entries the evicted entry is the
positionally last stored one (the kept prefix is everything before it), and
that entry is oldest-by-timestamp only under the additional assumption that
the stored list is ordered by descending timestamp. -/
theorem addAnalysisRecord_bound_and_eviction (st : Store) (old : List JsObj)
    (r : JsObj) (now rand : Int) (iso : String)
    (h : kvGet st "analysisHistory" = some (.good (.jarr old))) :
    ∃ st', coreAddAnalysisRecord true st r now rand iso =
        .ok (st', addRecordData r now rand iso) ∧
      kvGet st' "analysisHistory" =
        some (.good (.jarr ((addRecordData r now rand iso :: old).take 100))) ∧
      ((addRecordData r now rand iso :: old).take 100).length ≤ 100 ∧
      (∀ last, old.length = 100 → old.getLast? = some last →
        (∃ front, old = front ++ [last] ∧
          (addRecordData r now rand iso :: old).take 100 =
            addRecordData r now rand iso :: front) ∧
        (List.Pairwise (fun a b => tsOf b ≤ tsOf a) old →
          ∀ y ∈ old, tsOf last ≤ tsOf y)) := by
  have hstep : coreAddAnalysisRecord true st r now rand iso =
      .ok (kvSet (kvSet st "analysisHistory"
          (.good (.jarr ((addRecordData r now rand iso :: old).take 100))))
        "core_sync_trigger" (.good (.jstr (jsIntToString now))),
        addRecordData r now rand iso) := by
    simp [coreAddAnalysisRecord, readHistoryList, h, rawSetItem,
      coreTriggerSync, secureSetItem]
    rfl
  refine ⟨_, hstep, ?_, ?_, ?_⟩
  · rw [kvGet_kvSet_ne _ _ (by decide), kvGet_kvSet_self]
  · simp [List.length_take]
  · intro last h100 hlast
    obtain ⟨front, rfl⟩ := List.getLast?_eq_some_iff.mp hlast
    have hfront : front.length = 99 := by
      simpa using h100
    refine ⟨⟨front, rfl, ?_⟩, fun hp => pairwise_desc_getLastOpt_min _ hp hlast⟩
    rw [List.take_succ_cons, List.take_left' hfront]

/-- Witness for C3's amended bound at a concrete store. -/
theorem addAnalysisRecord_bound_and_eviction_witness :
    ∃ st', coreAddAnalysisRecord true [("analysisHistory", .good (.jarr []))]
        [("score", .num 80)] 7 3 "t" =
        .ok (st', addRecordData [("score", .num 80)] 7 3 "t") ∧
      kvGet st' "analysisHistory" = some (.good (.jarr
        ((addRecordData [("score", .num 80)] 7 3 "t" :: ([] : List JsObj)).take 100))) ∧
      ((addRecordData [("score", .num 80)] 7 3 "t" :: ([] : List JsObj)).take 100).length ≤ 100 ∧
      (∀ last, ([] : List JsObj).length = 100 → ([] : List JsObj).getLast? = some last →
        (∃ front, ([] : List JsObj) = front ++ [last] ∧
          (addRecordData [("score", .num 80)] 7 3 "t" :: ([] : List JsObj)).take 100 =
            addRecordData [("score", .num 80)] 7 3 "t" :: front) ∧
        (List.Pairwise (fun a b => tsOf b ≤ tsOf a) ([] : List JsObj) →
          ∀ y ∈ ([] : List JsObj), tsOf last ≤ tsOf y)) :=
  addAnalysisRecord_bound_and_eviction
    [("analysisHistory", .good (.jarr []))] [] [("score", .num 80)] 7 3 "t" rfl

/-- C8 counterexample: a record arriving with caller-supplied id `7` is
stored and returned with the freshly minted id `1000005`
(`Date.now() + rand`) instead — the `id:` field of the object literal
follows the spread, so a caller-supplied id is never preserved. -/
theorem addAnalysisRecord_overwrites_caller_id :
    coreAddAnalysisRecord true [] [("id", .num 7), ("score", .num 80)] 1000000 5 "t" =
      .ok ([("analysisHistory", .good (.jarr [[("id", .num 1000005), ("score", .num 80),
            ("timestamp", .num 1000000), ("createdAt", .str "t")]])),
          ("core_sync_trigger", .good (.jstr "1000000"))],
        [("id", .num 1000005), ("score", .num 80), ("timestamp", .num 1000000),
          ("createdAt", .str "t")]) ∧
    kvGet ([("id", .num 1000005), ("score", .num 80), ("timestamp", .num 1000000),
      ("createdAt", .str "t")] : JsObj) "id" ≠ some (.num 7) := ⟨rfl, by decide⟩

/-- C8 amended: `addAnalysisRecord` always assigns the freshly generated id
`now + rand`, overwriting any caller-supplied id; `timestamp` keeps a truthy
caller-supplied value and defaults to `now` otherwise (a falsy caller
timestamp, such as 0, is also replaced); the function returns exactly the
stored record — the head of the persisted list — including the generated
fields. -/
theorem addAnalysisRecord_id_timestamp_policy (st : Store) (old : List JsObj)
    (r : JsObj) (now rand : Int) (iso : String)
    (h : kvGet st "analysisHistory" = some (.good (.jarr old))) :
    ∃ st', coreAddAnalysisRecord true st r now rand iso =
        .ok (st', addRecordData r now rand iso) ∧
      kvGet (addRecordData r now rand iso) "id" = some (.num (now + rand)) ∧
      (jsTruthyO (kvGet r "timestamp") = true →
        kvGet (addRecordData r now rand iso) "timestamp" = kvGet r "timestamp") ∧
      (jsTruthyO (kvGet r "timestamp") = false →
        kvGet (addRecordData r now rand iso) "timestamp" = some (.num now)) ∧
      kvGet (addRecordData r now rand iso) "createdAt" = some (.str iso) ∧
      kvGet st' "analysisHistory" =
        some (.good (.jarr ((addRecordData r now rand iso :: old).take 100))) := by
  have hstep : coreAddAnalysisRecord true st r now rand iso =
      .ok (kvSet (kvSet st "analysisHistory"
          (.good (.jarr ((addRecordData r now rand iso :: old).take 100))))
        "core_sync_trigger" (.good (.jstr (jsIntToString now))),
        addRecordData r now rand iso) := by
    simp [coreAddAnalysisRecord, readHistoryList, h, rawSetItem,
      coreTriggerSync, secureSetItem]
    rfl
  refine ⟨_, hstep, ?_, ?_, ?_, ?_, ?_⟩
  · simp only [addRecordData]
    rw [kvGet_kvSet_ne _ _ (by decide), kvGet_kvSet_ne _ _ (by decide),
      kvGet_kvSet_self]
  · intro ht
    simp only [addRecordData]
    rw [kvGet_kvSet_ne _ _ (by decide), kvGet_kvSet_self]
    cases hc : kvGet r "timestamp" with
    | none => rw [hc] at ht; cases ht
    | some v =>
        rw [hc] at ht
        simp [jsOrD, jsTruthyO, show jsTruthy v = true from ht]
  · intro ht
    simp only [addRecordData]
    rw [kvGet_kvSet_ne _ _ (by decide), kvGet_kvSet_self]
    simp [jsOrD, ht]
  · simp only [addRecordData]
    rw [kvGet_kvSet_self]
  · rw [kvGet_kvSet_ne _ _ (by decide), kvGet_kvSet_self]

/-- Witness for C8's amended id/timestamp policy at a concrete record. -/
theorem addAnalysisRecord_id_timestamp_policy_witness :
    ∃ st', coreAddAnalysisRecord true [("analysisHistory", .good (.jarr []))]
        [("id", .num 7), ("timestamp", .num 5)] 100 4 "t" =
        .ok (st', addRecordData [("id", .num 7), ("timestamp", .num 5)] 100 4 "t") ∧
      kvGet (addRecordData [("id", .num 7), ("timestamp", .num 5)] 100 4 "t") "id" =
        some (.num (100 + 4)) ∧
      (jsTruthyO (kvGet [("id", .num 7), ("timestamp", .num 5)] "timestamp") = true →
        kvGet (addRecordData [("id", .num 7), ("timestamp", .num 5)] 100 4 "t") "timestamp" =
          kvGet [("id", .num 7), ("timestamp", .num 5)] "timestamp") ∧
      (jsTruthyO (kvGet [("id", .num 7), ("timestamp", .num 5)] "timestamp") = false →
        kvGet (addRecordData [("id", .num 7), ("timestamp", .num 5)] 100 4 "t") "timestamp" =
          some (.num 100)) ∧
      kvGet (addRecordData [("id", .num 7), ("timestamp", .num 5)] 100 4 "t") "createdAt" =
        some (.str "t") ∧
      kvGet st' "analysisHistory" = some (.good (.jarr
        ((addRecordData [("id", .num 7), ("timestamp", .num 5)] 100 4 "t" ::
          ([] : List JsObj)).take 100))) :=
  addAnalysisRecord_id_timestamp_policy [("analysisHistory", .good (.jarr []))]
    [] [("id", .num 7), ("timestamp", .num 5)] 100 4 "t" rfl

/-- C4 counterexample: deleting id `42` from a one-record store and from a
two-record store (numeric `42` and string `"42"`, both matching under the
coercing cascade) removes 1 and 2 records respectively, yet both calls
return the same value `true` — `deleteAnalysisRecord` returns the boolean
`updatedRecords.length !== historyRecords.length`, not the count removed. -/
theorem deleteAnalysisRecord_returns_flag_not_count :
    coreDeleteAnalysisRecord true
        [("analysisHistory", .good (.jarr [[("id", .num 42), ("score", .num 1)]]))]
        (.num 42) 9 =
      .ok ([("analysisHistory", .good (.jarr [])),
        ("core_sync_trigger", .good (.jstr "9"))], true) ∧
    coreDeleteAnalysisRecord true
        [("analysisHistory", .good (.jarr [[("id", .num 42), ("score", .num 1)],
          [("id", .str "42"), ("score", .num 2)]]))]
        (.num 42) 9 =
      .ok ([("analysisHistory", .good (.jarr [])),
        ("core_sync_trigger", .good (.jstr "9"))], true) := ⟨rfl, rfl⟩

/-- C4 amended: deletion removes exactly the records matching the target id
under coercing equality — in particular a stored string `"42"` matches
numeric `42` and vice versa — with zero matches a normal non-error result;
but `deleteAnalysisRecord` (deleteOne) returns only the boolean "was
anything removed", while `batchDeleteAnalysisRecords` (deleteMany) returns
the exact count removed. -/
theorem deleteRecord_coercing_equality :
    idCoerciveMatch (some (.str "42")) (.num 42) = true ∧
    idCoerciveMatch (some (.num 42)) (.str "42") = true ∧
    (∀ (st : Store) (old : List JsObj) (id : JsVal) (now : Int),
      kvGet st "analysisHistory" = some (.good (.jarr old)) →
      ∃ st' flag, coreDeleteAnalysisRecord true st id now = .ok (st', flag) ∧
        (flag = true ↔ ∃ rec ∈ old, idCoerciveMatch (kvGet rec "id") id = true) ∧
        kvGet st' "analysisHistory" = some (.good (.jarr
          (old.filter fun rec => !idCoerciveMatch (kvGet rec "id") id)))) ∧
    (∀ (st : Store) (old : List JsObj) (ids : List JsVal),
      kvGet st "analysisHistory" = some (.good (.jarr old)) →
      kvGet st "currentUser" = none →
      ∃ st', dbBatchDeleteAnalysisRecords true st ids =
          .ok (st', (old.filter fun rec =>
            ids.any fun id => idCoerciveMatch (kvGet rec "id") id).length) ∧
        kvGet st' "analysisHistory_default" = some (.good (.jarr
          (old.filter fun rec =>
            !ids.any fun id => idCoerciveMatch (kvGet rec "id") id)))) := by
  refine ⟨by decide, by decide, ?_, ?_⟩
  · intro st old id now h
    have hstep : coreDeleteAnalysisRecord true st id now =
        .ok (kvSet (kvSet st "analysisHistory" (.good (.jarr
            (old.filter fun rec => !idCoerciveMatch (kvGet rec "id") id))))
          "core_sync_trigger" (.good (.jstr (jsIntToString now))),
          decide ((old.filter fun rec =>
            !idCoerciveMatch (kvGet rec "id") id).length ≠ old.length)) := by
      simp [coreDeleteAnalysisRecord, readHistoryList, h, rawSetItem,
        coreTriggerSync, secureSetItem]
      rfl
    refine ⟨_, _, hstep, ?_, ?_⟩
    · rw [decide_eq_true_iff]
      exact length_filter_not_ne_iff old _
    · rw [kvGet_kvSet_ne _ _ (by decide), kvGet_kvSet_self]
  · intro st old ids h hcu
    have hkey : getUserSpecificKey st "analysisHistory" = "analysisHistory_default" := by
      simp [getUserSpecificKey, hcu]
    have hcount : old.length - (old.filter fun rec =>
        !ids.any fun id => idCoerciveMatch (kvGet rec "id") id).length =
        (old.filter fun rec =>
          ids.any fun id => idCoerciveMatch (kvGet rec "id") id).length := by
      have h2 : (old.filter fun rec =>
          ids.any fun id => idCoerciveMatch (kvGet rec "id") id).length +
          (old.filter fun rec =>
            !ids.any fun id => idCoerciveMatch (kvGet rec "id") id).length =
          old.length :=
        length_filter_add_length_filter_not old
          (fun rec => ids.any fun id => idCoerciveMatch (kvGet rec "id") id)
      omega
    have hstep : dbBatchDeleteAnalysisRecords true st ids =
        .ok (kvSet st "analysisHistory_default" (.good (.jarr
            (old.filter fun rec =>
              !ids.any fun id => idCoerciveMatch (kvGet rec "id") id))),
          old.length - (old.filter fun rec =>
            !ids.any fun id => idCoerciveMatch (kvGet rec "id") id).length) := by
      simp [dbBatchDeleteAnalysisRecords, readHistoryList, h, secureSetItem, hkey]
    rw [hcount] at hstep
    exact ⟨_, hstep, by rw [kvGet_kvSet_self]⟩

/-- Witness for C4's amended deletion semantics at concrete stores. -/
theorem deleteRecord_coercing_equality_witness :
    (∃ st' flag, coreDeleteAnalysisRecord true
        [("analysisHistory", .good (.jarr [[("id", .str "7")]]))] (.num 7) 3 =
        .ok (st', flag) ∧
      (flag = true ↔ ∃ rec ∈ ([[("id", .str "7")]] : List JsObj),
        idCoerciveMatch (kvGet rec "id") (.num 7) = true) ∧
      kvGet st' "analysisHistory" = some (.good (.jarr
        (([[("id", .str "7")]] : List JsObj).filter fun rec =>
          !idCoerciveMatch (kvGet rec "id") (.num 7))))) ∧
    (∃ st', dbBatchDeleteAnalysisRecords true
        [("analysisHistory", .good (.jarr [[("id", .num 8)]]))] [.str "8"] =
        .ok (st', (([[("id", .num 8)]] : List JsObj).filter fun rec =>
          ([JsVal.str "8"] : List JsVal).any fun id =>
            idCoerciveMatch (kvGet rec "id") id).length) ∧
      kvGet st' "analysisHistory_default" = some (.good (.jarr
        (([[("id", .num 8)]] : List JsObj).filter fun rec =>
          !(([JsVal.str "8"] : List JsVal).any fun id =>
            idCoerciveMatch (kvGet rec "id") id))))) := by
  have h := deleteRecord_coercing_equality
  exact ⟨h.2.2.1 _ [[("id", .str "7")]] (.num 7) 3 rfl,
    h.2.2.2 _ [[("id", .num 8)]] [.str "8"] rfl rfl⟩

end PP
